import Mathlib

/-!
Verification of the aura demo financial dashboard's compliance / credit-risk
scoring pipeline, shallowly embedded from the JavaScript sources.

Conventions of the embedding:
* JavaScript numbers are modelled as `ℚ` (all claim-relevant arithmetic is
  exact decimal arithmetic; where `ℚ` and IEEE doubles could diverge, e.g.
  division by zero, it is noted at the definition).
* A JavaScript field that may be `undefined` is modelled as `Option _`;
  `none` models `undefined`.  JS truthiness of such a field is `Option.isSome`
  (for strings, non-emptiness where it matters).
* Code that can throw is modelled in `Except JsErr _`.  A standalone module
  function that reaches an unbound identifier or calls a method through an
  unbound `this` is modelled as returning the corresponding error value.
* `Date.now()` and `Math.random()` are modelled as explicit extra arguments
  (`now : Int`, epoch milliseconds, and `rand : String`, the base-36 suffix):
  the JS runtime supplies them non-deterministically, so theorems quantify
  over them.
-/

/-- Errors a JavaScript evaluation can raise.  `typeError` models calling a
non-function (e.g. a method looked up on an unbound `this`), `referenceError`
models an unbound identifier, `complianceError` models the repository's own
`ComplianceError` class. -/
inductive JsErr where
  | typeError (msg : String)
  | referenceError (msg : String)
  | complianceError (msg code : String)
deriving DecidableEq, Repr

/-- Result of checking whether an `Except` computation succeeded. -/
def exceptOk {ε α : Type} : Except ε α → Bool
  | Except.ok _ => true
  | Except.error _ => false

/-! ## Data model (loan applications), from the shapes read by the agents -/

/-- Postal address as read by the agents (`address.country` by
`assessGeographicRisk`, `address.state` by the risk models). -/
structure Address where
  state : Option String
  country : String
deriving DecidableEq, Repr

/-- Credit-card record (`card.limit`, `card.balance`) as read by
`calculateCreditUtilization` and the EAD model. -/
structure CreditCard where
  limit : ℚ
  balance : ℚ
deriving DecidableEq, Repr

/-- Transaction record as read by `detectStructuring` (`t.amount`) and
`analyzePaymentHistory` (`t.type`, `t.onTime`).  `onTime` is `Option Bool`
because the source distinguishes `t.onTime` truthy, `t.onTime !== false`,
and absent. -/
structure Txn where
  amount : ℚ
  txnType : String
  onTime : Option Bool
deriving DecidableEq, Repr

/-- Account history: a list of transactions. -/
structure AccountHistory where
  transactions : List Txn
deriving DecidableEq, Repr

/-- Demographic fields inspected (only for truthiness, in the unreachable
`identifyProtectedClasses`) by the fair-lending module. -/
structure Demographics where
  race : Option String
  gender : Option String
  age : Option ℚ
  maritalStatus : Option String
deriving DecidableEq, Repr

/-- Personal information of an applicant, as read by the KYC check
(`ssn`, `address`, `addressVerified`), the screening utilities
(`firstName`, `lastName`), and `calculateAge` (`dateOfBirth`, modelled as
epoch milliseconds). -/
structure PersonalInfo where
  firstName : String
  lastName : String
  ssn : Option String
  address : Option Address
  addressVerified : Bool
  dateOfBirth : Int
deriving DecidableEq, Repr

/-- Financial information of an applicant, as read by the credit-risk agent
and its models. -/
structure FinancialInfo where
  annualIncome : ℚ
  monthlyIncome : ℚ
  monthlyDebt : ℚ
  employmentHistory : ℚ
  employmentType : String
  incomeSource : String
  industryType : Option String
  creditScore : Option ℚ
  liquidAssets : Option ℚ
  netWorth : Option ℚ
  creditCards : Option (List CreditCard)
  accountHistory : Option AccountHistory
deriving DecidableEq, Repr

/-- Loan details (`loanAmount`, `loanType`, `seniority`). -/
structure LoanDetails where
  loanAmount : ℚ
  loanType : Option String
  seniority : Option String
deriving DecidableEq, Repr

/-- Collateral (`collateralValue`, `collateralType`). -/
structure Collateral where
  collateralValue : ℚ
  collateralType : String
deriving DecidableEq, Repr

/-- Banking relationship information (`relationshipInfo.length`,
`relationshipInfo.products`). -/
structure RelationshipInfo where
  length : ℚ
  products : List String
deriving DecidableEq, Repr

/-- A loan application, holding exactly the fields the scoring pipeline
reads.  `accountHistory` at top level is the field read by the AML check;
`financialInfo.accountHistory` is the one read by the credit-risk agent. -/
structure Application where
  id : String
  personalInfo : PersonalInfo
  financialInfo : FinancialInfo
  loanDetails : LoanDetails
  collateral : Option Collateral
  relationshipInfo : Option RelationshipInfo
  channel : String
  demographics : Option Demographics
  incomeVerified : Bool
  incomeDocuments : Bool
  employmentVerified : Bool
  accountHistory : Option AccountHistory
deriving DecidableEq, Repr

/-! ## complianceConfig (src/demo/src/agents/config/complianceConfig.js) -/

/-- KYC pass/conditional thresholds from `complianceConfig`. -/
structure KycThresholds where
  pass : ℕ
  conditional : ℕ
deriving DecidableEq, Repr

/-- Compliance configuration module: `kycThresholds: { pass: 75, conditional: 50 }`. -/
def complianceConfig : KycThresholds := { pass := 75, conditional := 50 }

/-! ## KYC check (src/demo/src/agents/compliance/KYCChecks.js) -/

/-- Result object built by `performKYCCheck`.  The score is a JS number that
only ever takes values in 25·ℕ, modelled as `ℕ`. -/
structure KycResult where
  status : String
  score : ℕ
  requirements : List String
  documents : List String
  issues : List String
deriving DecidableEq, Repr

/-- JS truthiness of an optional string field (undefined and the empty
string are falsy). -/
def truthyStr : Option String → Bool
  | none => false
  | some s => s ≠ ""

/-- Embedding of `performKYCCheck(application)`: four independent +25
verifications (SSN, address, income, employment), then a status from the
configured thresholds.  The `try/catch` of the source can only fire on a
malformed application (absent `personalInfo`), which the `Application`
structure rules out, so the embedded function is total. -/
def performKYCCheck (application : Application) : KycResult :=
  let ssnOk := truthyStr application.personalInfo.ssn
  let addrOk := application.personalInfo.address.isSome && application.personalInfo.addressVerified
  let incomeOk := application.incomeVerified && application.incomeDocuments
  let emplOk := application.employmentVerified
  let score :=
    (if ssnOk then 25 else 0) + (if addrOk then 25 else 0) +
    (if incomeOk then 25 else 0) + (if emplOk then 25 else 0)
  { status :=
      if score ≥ complianceConfig.pass then "PASS"
      else if score ≥ complianceConfig.conditional then "CONDITIONAL"
      else "FAIL"
    score := score
    requirements :=
      (if ssnOk then ["SSN_VERIFIED"] else []) ++
      (if addrOk then ["ADDRESS_VERIFIED"] else []) ++
      (if incomeOk then ["INCOME_VERIFIED"] else []) ++
      (if emplOk then ["EMPLOYMENT_VERIFIED"] else [])
    documents := []
    issues :=
      (if ssnOk then [] else ["Missing SSN"]) ++
      (if addrOk then [] else ["Address not verified"]) ++
      (if incomeOk then [] else ["Income documentation incomplete"]) ++
      (if emplOk then [] else ["Employment not verified"]) }

/-- Number of satisfied verification requirements (SSN, address, income,
employment) of an application, as counted by the four guards of
`performKYCCheck`. -/
def kycSatisfiedCount (application : Application) : ℕ :=
  (if truthyStr application.personalInfo.ssn then 1 else 0) +
  (if application.personalInfo.address.isSome && application.personalInfo.addressVerified then 1 else 0) +
  (if application.incomeVerified && application.incomeDocuments then 1 else 0) +
  (if application.employmentVerified then 1 else 0)

/-! ## ComplianceAgent.evaluateOverallCompliance (ComplianceAgent.js) -/

/-- A single check result as consumed by `evaluateOverallCompliance`
(only the `status` field is read there). -/
structure CheckResult where
  status : String
deriving DecidableEq, Repr

/-- The `checks` record of a compliance check: the five rule-based check
results, in the insertion order of `performComplianceCheck`. -/
structure ComplianceChecks where
  kyc : CheckResult
  aml : CheckResult
  fairLending : CheckResult
  regulatory : CheckResult
  sanctions : CheckResult
deriving DecidableEq, Repr

/-- Statuses of the five checks, in `Object.values` (insertion) order. -/
def checksStatuses (checks : ComplianceChecks) : List String :=
  [checks.kyc.status, checks.aml.status, checks.fairLending.status,
   checks.regulatory.status, checks.sanctions.status]

/-- Embedding of `ComplianceAgent.evaluateOverallCompliance(checks)`. -/
def evaluateOverallCompliance (checks : ComplianceChecks) : String :=
  let statuses := checksStatuses checks
  if statuses.contains "FAIL" || statuses.contains "VIOLATION" then
    "NON_COMPLIANT"
  else if statuses.contains "REVIEW_REQUIRED" || statuses.contains "WARNING" then
    "REVIEW_REQUIRED"
  else
    "COMPLIANT"

/-! ## Screening utilities (src/demo/src/agents/utils/screeningUtils.js) -/

/-- Inner recursion of `levDistAux`: given `x`, the distances from the tail
`xs` (as the function `levxs`), computes the distances from `x :: xs`, by
structural recursion on the second string. -/
def levConsAux (x : Char) (levxs : List Char → ℕ) : List Char → ℕ
  | [] => levxs [] + 1
  | y :: ys =>
    if x = y then levxs ys
    else
      min (levxs ys + 1)
        (min (levxs (y :: ys) + 1) (levConsAux x levxs ys + 1))

/-- Embedding of `levenshteinDistance(str1, str2)`.  The source tabulates
the unit-cost edit-distance recurrence in a matrix: first row and column
`j` and `i`, then `matrix[i][j] = matrix[i-1][j-1]` on equal characters
and otherwise `Math.min` of diagonal, left and above plus one.  This
definition is exactly that recurrence on the two character lists (split
into `levConsAux` to make the recursion structural); see
`levDistAux_cons_cons` for the recurrence as a `rfl` equation. -/
def levDistAux : List Char → List Char → ℕ
  | [], ys => ys.length
  | x :: xs, ys => levConsAux x (levDistAux xs) ys

/-- String-level wrapper matching the source signature.  -/
def levenshteinDistance (str1 str2 : String) : ℕ :=
  levDistAux str1.data str2.data

/-- Embedding of `fuzzyMatch(str1, str2)`: similarity
`(longer.length - levenshteinDistance(longer, shorter)) / longer.length`,
with `1.0` for two empty strings. -/
def fuzzyMatch (str1 str2 : String) : ℚ :=
  let longer := if str1.length > str2.length then str1 else str2
  let shorter := if str1.length > str2.length then str2 else str1
  if longer.length = 0 then 1
  else ((longer.length : ℚ) - (levenshteinDistance longer shorter : ℚ)) / (longer.length : ℚ)

/-- Watch-list entry: the screening reads `entry.name`. -/
structure WatchEntry where
  name : String
deriving DecidableEq, Repr

/-- A reported watch-list match (`type`, `confidence`, `entry`). -/
structure WatchMatch where
  matchType : String
  confidence : ℚ
  entry : WatchEntry
deriving DecidableEq, Repr

/-- Result object of `screenAgainstWatchList`.  The source field `matches`
is spelled `exactMatches` here because `matches` is a Lean keyword. -/
structure ScreeningResult where
  exactMatches : List WatchMatch
  fuzzyMatches : List WatchMatch
deriving DecidableEq, Repr

/-- ASCII model of `String.prototype.toLowerCase()` (character-wise
lowering of the underlying character list). -/
def jsToLower (s : String) : String := String.mk (s.data.map Char.toLower)

/-- The entry loop of `screenAgainstWatchList`: exact (case-insensitive)
name matches are pushed with confidence `1.0`; otherwise entries whose
fuzzy score exceeds `0.8` are pushed with that score. -/
def screenLoop (fullName : String) : List WatchEntry → List WatchMatch × List WatchMatch
  | [] => ([], [])
  | entry :: rest =>
    let tail := screenLoop fullName rest
    if jsToLower entry.name = fullName then
      ({ matchType := "EXACT_MATCH", confidence := 1, entry := entry } :: tail.1, tail.2)
    else if fuzzyMatch fullName (jsToLower entry.name) > 8/10 then
      (tail.1,
        { matchType := "FUZZY_MATCH",
          confidence := fuzzyMatch fullName (jsToLower entry.name),
          entry := entry } :: tail.2)
    else
      tail

/-- Embedding of `screenAgainstWatchList(personalInfo, watchList)`. -/
def screenAgainstWatchList (personalInfo : PersonalInfo) (watchList : List WatchEntry) :
    ScreeningResult :=
  let fullName := jsToLower (personalInfo.firstName ++ " " ++ personalInfo.lastName)
  let acc := screenLoop fullName watchList
  { exactMatches := acc.1, fuzzyMatches := acc.2 }

/-! ## AML utilities (src/demo/src/agents/utils/amlUtils.js) -/

/-- Result of `detectStructuring`. -/
structure StructuringRisk where
  detected : Bool
  count : ℕ
deriving DecidableEq, Repr

/-- Embedding of `detectStructuring(transactions)`: transactions with amount
in `(9000, 10000)` are suspicious; detection requires more than five. -/
def detectStructuring (transactions : List Txn) : StructuringRisk :=
  let threshold : ℚ := 10000
  let suspiciousTransactions :=
    transactions.filter (fun t => threshold * 9/10 < t.amount && t.amount < threshold)
  { detected := suspiciousTransactions.length > 5, count := suspiciousTransactions.length }

/-- Result of `detectUnusualVolume` (never produced: see the definition). -/
structure VolumeRisk where
  detected : Bool
  ratio : ℚ
deriving DecidableEq, Repr

/-- Embedding of `detectUnusualVolume(transactions)`: its first statement is
`const averageMonthlyVolume = calculateAverageMonthlyVolume(transactions);`,
and `calculateAverageMonthlyVolume` is not defined in `amlUtils.js` (it is a
method of `ComplianceAgent`, not in scope there), so the call raises a
`ReferenceError` unconditionally. -/
def detectUnusualVolume (_transactions : List Txn) : Except JsErr VolumeRisk :=
  Except.error (JsErr.referenceError "calculateAverageMonthlyVolume is not defined")

/-- Transaction-pattern analysis result. -/
structure Patterns where
  suspicious : Bool
  flags : List String
  riskScore : ℚ
deriving DecidableEq, Repr

/-- Embedding of `analyzeTransactionPatterns(accountHistory)`: structuring
detection succeeds, after which the call to `detectUnusualVolume`
propagates its `ReferenceError`. -/
def analyzeTransactionPatterns (accountHistory : AccountHistory) : Except JsErr Patterns := do
  let structuringRisk := detectStructuring accountHistory.transactions
  let flags1 : List String := if structuringRisk.detected then ["STRUCTURING"] else []
  let score1 : ℚ := if structuringRisk.detected then 3/10 else 0
  let volumeRisk ← detectUnusualVolume accountHistory.transactions
  let flags2 := if volumeRisk.detected then flags1 ++ ["UNUSUAL_VOLUME"] else flags1
  let score2 := if volumeRisk.detected then score1 + 2/10 else score1
  pure { suspicious := score2 > 1/2, flags := flags2, riskScore := score2 }

/-- Geographic risk assessment result. -/
structure GeoRisk where
  riskScore : ℚ
  country : String
  riskLevel : String
deriving DecidableEq, Repr

/-- Embedding of `assessGeographicRisk(address)` on a present address. -/
def assessGeographicRisk (address : Address) : GeoRisk :=
  let highRiskCountries := ["Country1", "Country2"]
  let riskScore : ℚ := if highRiskCountries.contains address.country then 8/10 else 1/10
  { riskScore := riskScore
    country := address.country
    riskLevel := if riskScore > 1/2 then "HIGH" else "LOW" }

/-! ## AML check (src/demo/src/agents/compliance/AMLScreening.js) -/

/-- The agent's watch lists (`this.watchLists`), loaded at construction. -/
structure WatchLists where
  pep : List WatchEntry
  sanctions : List WatchEntry
  adverse : List WatchEntry
deriving DecidableEq, Repr

/-- Screening results gathered by the AML check. -/
structure AmlScreeningResults where
  sanctions : ScreeningResult
  pep : ScreeningResult
  transactionPattern : Option Patterns
  geographic : GeoRisk
deriving DecidableEq, Repr

/-- Result object of `performAMLCheck`. -/
structure AmlResult where
  status : String
  riskLevel : String
  flags : List String
  screeningResults : AmlScreeningResults
  requiresManualReview : Bool
deriving DecidableEq, Repr

/-- Embedding of `performAMLCheck(application, watchLists)`.  The
transaction-pattern branch (entered only when `application.accountHistory`
is present) propagates the `ReferenceError` of `detectUnusualVolume`;
`assessGeographicRisk` dereferences `address.country`, so an absent address
raises a `TypeError`. -/
def performAMLCheck (application : Application) (watchLists : WatchLists) :
    Except JsErr AmlResult := do
  let sanctionsR := screenAgainstWatchList application.personalInfo watchLists.sanctions
  let pepR := screenAgainstWatchList application.personalInfo watchLists.pep
  let transactionPattern : Option Patterns ←
    match application.accountHistory with
    | some accountHistory => do
        let p ← analyzeTransactionPatterns accountHistory
        pure (some p)
    | none => pure none
  let geographic : GeoRisk ←
    match application.personalInfo.address with
    | some address => pure (assessGeographicRisk address)
    | none =>
        Except.error (JsErr.typeError "Cannot read properties of undefined reading country")
  let sanctionsHit := sanctionsR.exactMatches.length > 0
  let pepHit := pepR.exactMatches.length > 0
  let suspiciousPattern := (transactionPattern.map Patterns.suspicious).getD false
  let riskLevel := if pepHit then "MEDIUM" else if sanctionsHit then "HIGH" else "LOW"
  let flags :=
    (if sanctionsHit then ["SANCTIONS_MATCH"] else []) ++
    (if pepHit then ["PEP_MATCH"] else []) ++
    (if suspiciousPattern then ["SUSPICIOUS_PATTERN"] else [])
  let requiresManualReview := sanctionsHit || pepHit || suspiciousPattern
  pure
    { status :=
        if flags.contains "SANCTIONS_MATCH" then "FAIL"
        else if requiresManualReview then "REVIEW_REQUIRED"
        else "PASS"
      riskLevel := riskLevel
      flags := flags
      screeningResults :=
        { sanctions := sanctionsR, pep := pepR,
          transactionPattern := transactionPattern, geographic := geographic }
      requiresManualReview := requiresManualReview }

/-! ## Fair-lending, regulatory and sanctions checks

The modules `FairLending.js`, `RegulatoryCheck.js` and `SanctionsScreening.js`
export standalone functions, which `ComplianceAgent.performComplianceCheck`
invokes as plain function calls (`performFairLendingCheck(application,
riskAssessment)` etc.).  In a plain (non-method) call, `this` is not the
agent, so every `this.someAgentMethod(...)` inside those modules calls a
non-function and raises a `TypeError`; likewise the free identifier
`screenAgainstSanctionsList` in `SanctionsScreening.js` is unbound there and
raises a `ReferenceError`. -/

/-- Result type of `performFairLendingCheck` (never produced: the function
raises before completing). -/
structure FairLendingResult where
  status : String
  protectedClasses : List String
  disparateImpact : Bool
  biasRisk : String
  recommendations : List String
deriving DecidableEq, Repr

/-- The risk-assessment argument of the compliance check (its content is
never reached; only its JS truthiness matters). -/
structure RiskAssessment where
  capitalRequirement : Option ℚ
deriving DecidableEq, Repr

/-- Embedding of `performFairLendingCheck(application, riskAssessment)`:
in module scope `this` is not the `ComplianceAgent` instance, so whichever
of `this.identifyProtectedClasses`, `this.analyzDecisionConsistency` or the
unconditional `this.assessBiasRisk` is reached first raises a `TypeError`. -/
def performFairLendingCheck (application : Application)
    (riskAssessment : Option RiskAssessment) : Except JsErr FairLendingResult :=
  if application.demographics.isSome then
    Except.error (JsErr.typeError "this.identifyProtectedClasses is not a function")
  else if riskAssessment.isSome then
    Except.error (JsErr.typeError "this.analyzDecisionConsistency is not a function")
  else
    Except.error (JsErr.typeError "this.assessBiasRisk is not a function")

/-- Result type of `performRegulatoryCheck` (never produced). -/
structure RegulatoryResult where
  status : String
deriving DecidableEq, Repr

/-- Embedding of `performRegulatoryCheck(application, riskAssessment)`: its
first statement calls `this.checkBaselCompliance` on an unbound `this`. -/
def performRegulatoryCheck (_application : Application)
    (_riskAssessment : Option RiskAssessment) : Except JsErr RegulatoryResult :=
  Except.error (JsErr.typeError "this.checkBaselCompliance is not a function")

/-- Result type of `performSanctionsCheck` (never produced). -/
structure SanctionsResult where
  status : String
deriving DecidableEq, Repr

/-- Embedding of `performSanctionsCheck(application, watchLists)`: the first
loop iteration evaluates the unbound identifier
`screenAgainstSanctionsList` (a `ComplianceAgent` method, not in scope in
`SanctionsScreening.js`). -/
def performSanctionsCheck (_application : Application) (_watchLists : WatchLists) :
    Except JsErr SanctionsResult :=
  Except.error (JsErr.referenceError "screenAgainstSanctionsList is not defined")

/-! ## ComplianceAgent.performComplianceCheck (ComplianceAgent.js) -/

/-- The five check results as they would be assembled by
`performComplianceCheck` (the record it stores under `checks`). -/
structure ComplianceCheckResults where
  kyc : KycResult
  aml : AmlResult
  fairLending : FairLendingResult
  regulatory : RegulatoryResult
  sanctions : SanctionsResult
deriving DecidableEq, Repr

/-- A violation entry produced by `identifyViolations`. -/
structure Violation where
  violationType : String
  severity : String
  description : String
deriving DecidableEq, Repr

/-- A recommendation entry produced by `generateComplianceRecommendations`. -/
structure Recommendation where
  priority : String
  action : String
  reason : String
deriving DecidableEq, Repr

/-- The compliance-check record returned by `performComplianceCheck`
(timestamp is the clock value at entry, in epoch milliseconds). -/
structure ComplianceCheckRecord where
  applicationId : String
  timestamp : Int
  agentId : String
  checks : ComplianceCheckResults
  overallStatus : String
  violations : List Violation
  recommendations : List Recommendation
deriving DecidableEq, Repr

/-- Statuses of a `ComplianceCheckResults` record in insertion order, as
`Object.values(checks).map(check => check.status)` reads them. -/
def resultsStatuses (checks : ComplianceCheckResults) : List String :=
  [checks.kyc.status, checks.aml.status, checks.fairLending.status,
   checks.regulatory.status, checks.sanctions.status]

/-- Embedding of `ComplianceAgent.performComplianceCheck(application,
riskAssessment)`: runs the five checks in order inside `Except`, so the
first raising check aborts the whole call (the promise rejects).  The
status evaluation, violation identification, recommendation generation and
audit logging below the five awaits are consequently dead code; they are
embedded on the success path all the same. -/
def performComplianceCheck (watchLists : WatchLists) (application : Application)
    (riskAssessment : Option RiskAssessment) (now : Int) :
    Except JsErr ComplianceCheckRecord := do
  let kyc := performKYCCheck application
  let aml ← performAMLCheck application watchLists
  let fairLending ← performFairLendingCheck application riskAssessment
  let regulatory ← performRegulatoryCheck application riskAssessment
  let sanctions ← performSanctionsCheck application watchLists
  let checks : ComplianceCheckResults :=
    { kyc := kyc, aml := aml, fairLending := fairLending,
      regulatory := regulatory, sanctions := sanctions }
  let statuses := resultsStatuses checks
  let overallStatus :=
    if statuses.contains "FAIL" || statuses.contains "VIOLATION" then "NON_COMPLIANT"
    else if statuses.contains "REVIEW_REQUIRED" || statuses.contains "WARNING" then
      "REVIEW_REQUIRED"
    else "COMPLIANT"
  let violations :=
    (List.zip ["kyc", "aml", "fairLending", "regulatory", "sanctions"] statuses).filterMap
      (fun p =>
        if p.2 = "FAIL" || p.2 = "VIOLATION" then
          some { violationType := p.1, severity := "HIGH",
                 description := p.1 ++ " check failed" }
        else none)
  let recommendations : List Recommendation :=
    if overallStatus = "NON_COMPLIANT" then
      [{ priority := "HIGH", action := "REJECT_APPLICATION",
         reason := "Compliance violations detected" }]
    else if overallStatus = "REVIEW_REQUIRED" then
      [{ priority := "MEDIUM", action := "MANUAL_REVIEW",
         reason := "Additional compliance review required" }]
    else []
  pure
    { applicationId := application.id
      timestamp := now
      agentId := "compliance-001"
      checks := checks
      overallStatus := overallStatus
      violations := violations
      recommendations := recommendations }

/-! ## Market service (src/demo/src/services/marketService.js, two copies)

The repository contains two copies of `marketService.js`.  In one,
`fetchTreasuryRates` resolves to an object `{ rate, isFallback }` and the
yields are `{ rate, liquidity }` objects; in the other it resolves to a bare
number and the yields are bare numbers.  Both are embedded.  The network is
modelled by `FredOutcome`, the outcome of the proxied FRED request as the
function observes it. -/

/-- Outcome of the FRED `DGS3MO` request: no API key configured, a non-ok
HTTP response, a response without observations, or the latest observation
with the result of `parseFloat(observation.value)` (`none` models `NaN`). -/
inductive FredOutcome where
  | noApiKey
  | httpError (status : ℕ)
  | noObservations
  | observation (value : Option ℚ)
deriving DecidableEq, Repr

/-- Resolution of the object-returning `fetchTreasuryRates`. -/
structure TreasuryRates where
  rate : ℚ
  isFallback : Bool
deriving DecidableEq, Repr

/-- Embedding of the object-returning `fetchTreasuryRates`: the parsed rate
with `isFallback: false` when the request succeeds and the value parses,
and the fallback `{ rate: 5.2, isFallback: true }` in every other case
(every throw lands in the `catch`). -/
def fetchTreasuryRatesObj (outcome : FredOutcome) : TreasuryRates :=
  match outcome with
  | FredOutcome.observation (some rate) => { rate := rate, isFallback := false }
  | _ => { rate := 26/5, isFallback := true }

/-- Embedding of the number-returning `fetchTreasuryRates` (second copy). -/
def fetchTreasuryRatesNum (outcome : FredOutcome) : ℚ :=
  match outcome with
  | FredOutcome.observation (some rate) => rate
  | _ => 26/5

/-- Model of `parseFloat(x.toFixed(2))`: rounding to the nearest hundredth
(the claims do not depend on the tie behaviour). -/
def toFixed2 (x : ℚ) : ℚ := ((⌊x * 100 + 1/2⌋ : ℤ) : ℚ) / 100

/-- A yield entry of the object-returning `fetchCurrentYields`. -/
structure YieldEntry where
  rate : ℚ
  liquidity : ℚ
deriving DecidableEq, Repr

/-- Yields record of the object-returning `fetchCurrentYields`. -/
structure YieldsV1 where
  treasuryMMF : YieldEntry
  moneyMarket : YieldEntry
  highYieldSavings : YieldEntry
  checking : YieldEntry
  cd3Month : YieldEntry
  cd6Month : YieldEntry
deriving DecidableEq, Repr

/-- The `value` property of a `fetchTreasuryRates` resolution, as read by
the destructuring `const { value: baseRate, isFallback } = await
fetchTreasuryRates();` in the object-returning `fetchCurrentYields`.
`TreasuryRates` has properties `rate` and `isFallback` but no `value`, so
the read yields `undefined`. -/
def treasuryRatesValueProp (_rates : TreasuryRates) : Option ℚ := none

/-- Embedding of the object-returning `fetchCurrentYields`:
`baseRate` is the (absent) `value` property of the treasury-rates object,
`parseFloat(baseRate)` of `undefined` is `NaN`, and `NaN || 4.0` is `4.0`
(a present `0` would likewise fall back to `4.0`). -/
def fetchCurrentYieldsV1 (outcome : FredOutcome) : YieldsV1 :=
  let rates := fetchTreasuryRatesObj outcome
  let baseRate := treasuryRatesValueProp rates
  let parsedRate : ℚ :=
    match baseRate with
    | some v => if v = 0 then 4 else v
    | none => 4
  { treasuryMMF := { rate := toFixed2 (parsedRate + 3/20), liquidity := 9/10 }
    moneyMarket := { rate := toFixed2 (max (parsedRate - 1/4) 4), liquidity := 9/10 }
    highYieldSavings := { rate := toFixed2 (max (parsedRate - 9/20) (19/5)), liquidity := 4/5 }
    checking := { rate := 1/10, liquidity := 1 }
    cd3Month := { rate := toFixed2 (parsedRate + 1/4), liquidity := 3/10 }
    cd6Month := { rate := toFixed2 (parsedRate + 7/20), liquidity := 1/10 } }

/-- Yields record of the number-returning `fetchCurrentYields`. -/
structure YieldsV2 where
  treasuryMMF : ℚ
  moneyMarket : ℚ
  highYieldSavings : ℚ
  checking : ℚ
  cd3Month : ℚ
  cd6Month : ℚ
deriving DecidableEq, Repr

/-- Embedding of the number-returning `fetchCurrentYields` (second copy):
every product yield is a spread over the fetched treasury rate, rounded to
two decimals (its `catch` branch is unreachable because the embedded body
cannot throw). -/
def fetchCurrentYieldsV2 (outcome : FredOutcome) : YieldsV2 :=
  let baseRate := fetchTreasuryRatesNum outcome
  { treasuryMMF := toFixed2 (baseRate + 3/20)
    moneyMarket := toFixed2 (max (baseRate - 1/4) 4)
    highYieldSavings := toFixed2 (max (baseRate - 9/20) (19/5))
    checking := 1/10
    cd3Month := toFixed2 (baseRate + 1/4)
    cd6Month := toFixed2 (baseRate + 7/20) }

/-! ## CreditRiskAgent (src/demo/src/agents/utils/screeningUtils.js, CreditRiskAgent.js part)

`CreditRiskAgent.js` ends with the comment "Additional helper methods would
be implemented here...": a number of helper methods invoked by
`assessCreditRisk` (`analyzeDetailedRiskFactors` internals,
`analyzeConcentrationRisk` internals, `validateAssessment`,
`generateDetailedRecommendation`, `calculatePricingAdjustments`,
`calculatePaymentTrend`, `analyzeCommPattern`, `getIndustryPerformance`,
`getRegionalEconomics`, the stress multipliers, `calculateCapitalRequirement`,
`calculateRiskAdjustedReturn`, `getStressTestThreshold`) are elided from the
source.  The model classes' `predict` functions are present but the PD
model's logistic uses `Math.exp`, so all four predicts are abstracted
together with the elided helpers. -/

/-- An economic scenario from `initializeEconomicScenarios`. -/
structure Scenario where
  name : String
  gdpGrowth : ℚ
  unemploymentRate : ℚ
  interestRateShock : ℚ
  housingPriceChange : ℚ
  equityMarketShock : ℚ
  corporateBondSpreads : ℚ
  probability : ℚ
deriving DecidableEq, Repr

/-- The agent's `economicScenarios` map (key, scenario), in insertion order. -/
def economicScenarios : List (String × Scenario) :=
  [("baseline",
    { name := "Baseline Economic Scenario", gdpGrowth := 1/40,
      unemploymentRate := 11/200, interestRateShock := 0,
      housingPriceChange := 3/100, equityMarketShock := 0,
      corporateBondSpreads := 3/200, probability := 3/5 }),
   ("adverse",
    { name := "Adverse Economic Scenario", gdpGrowth := -3/200,
      unemploymentRate := 17/200, interestRateShock := 1/50,
      housingPriceChange := -3/20, equityMarketShock := -1/4,
      corporateBondSpreads := 7/200, probability := 3/10 }),
   ("severely_adverse",
    { name := "Severely Adverse Economic Scenario", gdpGrowth := -9/200,
      unemploymentRate := 3/25, interestRateShock := 7/200,
      housingPriceChange := -3/10, equityMarketShock := -9/20,
      corporateBondSpreads := 13/200, probability := 1/10 })]

/-- The `scores` record built by `calculateComprehensiveRiskScores`. -/
structure RiskScores where
  creditScore : ℚ
  financialStability : ℚ
  behavioral : ℚ
  collateral : ℚ
  marketConditions : ℚ
  overall : ℚ
  probabilityOfDefault : ℚ
  lossGivenDefault : ℚ
  exposureAtDefault : ℚ
  expectedLoss : ℚ
deriving DecidableEq, Repr

/-- Modelled from the spec: the spec describes the scoring pipeline as
"deterministic arithmetic over plain data structures".  This structure
collects, as arbitrary pure functions, (a) the helper methods elided from
`CreditRiskAgent.js` and (b) the model `predict` functions (present in the
source, but the PD model computes a logistic through `Math.exp`, which has
no exact `ℚ` embedding).  Per the spec they are deterministic functions of
the application data and computed scores; in particular they do not read
the clock, the random generator, or the assessment id. -/
structure CreditRiskEnv (ρ : Type) where
  creditScorePredict : Application → ℚ
  pdPredict : Application → ℚ
  lgdPredict : Application → ℚ
  eadPredict : Application → ℚ
  getIndustryPerformance : Option String → ℚ
  getRegionalEconomics : Option Address → ℚ
  calculatePaymentTrend : List Txn → String
  analyzeCommPattern : Application → ρ
  analyzeDetailedRiskFactors : Application → ρ
  analyzeConcentrationRisk : Application → ρ
  generateModelOutputs : Application → ρ
  validateAssessment : Application → RiskScores → ρ
  generateDetailedRecommendation : Application → RiskScores → ρ
  calculatePricingAdjustments : Application → RiskScores → ρ
  calculatePDStressMultiplier : Scenario → Application → ℚ
  calculateLGDStressMultiplier : Scenario → Application → ℚ
  calculateEADStressMultiplier : Scenario → Application → ℚ
  calculateCapitalRequirement : RiskScores → Scenario → ℚ
  calculateRiskAdjustedReturn : Application → RiskScores → ℚ
  getStressTestThreshold : ℚ

/-- Embedding of `calculateAge(dateOfBirth)`:
`Math.floor((Date.now() - dob) / (365.25 * 24 * 60 * 60 * 1000))`, with the
current clock value passed explicitly. -/
def calculateAge (now dateOfBirth : Int) : Int :=
  (((now - dateOfBirth : ℚ)) / 31557600000).floor

/-- JS `optionalString || defaultString` (undefined and empty are falsy). -/
def strOr (o : Option String) (d : String) : String :=
  match o with
  | some s => if s = "" then d else s
  | none => d

/-- Embedding of `assessIncomeStability(financialInfo)`: the average of an
employment-type factor, a capped tenure factor and an income-source factor. -/
def assessIncomeStability (financialInfo : FinancialInfo) : ℚ :=
  let stabilityFactors : List ℚ :=
    [if financialInfo.employmentType = "full_time" then 9/10
     else if financialInfo.employmentType = "part_time" then 3/5 else 3/10,
     min (financialInfo.employmentHistory / 60) 1,
     if financialInfo.incomeSource = "employment" then 9/10
     else if financialInfo.incomeSource = "business" then 7/10 else 1/2]
  stabilityFactors.foldl (· + ·) 0 / (stabilityFactors.length : ℚ)

/-- Embedding of `calculateCreditUtilization(financialInfo)`. -/
def calculateCreditUtilization (financialInfo : FinancialInfo) : ℚ :=
  match financialInfo.creditCards with
  | none => 0
  | some cards =>
    if cards.length = 0 then 0
    else
      let totalLimit := cards.foldl (fun sum card => sum + card.limit) 0
      let totalBalance := cards.foldl (fun sum card => sum + card.balance) 0
      if totalLimit > 0 then totalBalance / totalLimit else 0

/-- The record returned by `analyzePaymentHistory` (`onTimeRate` is absent
from the no-history result). -/
structure PaymentHistory where
  score : ℚ
  trend : String
  onTimeRate : Option ℚ
deriving DecidableEq, Repr

/-- Embedding of `analyzePaymentHistory(accountHistory)`; the trend comes
from the elided `calculatePaymentTrend`. -/
def analyzePaymentHistory {ρ : Type} (env : CreditRiskEnv ρ)
    (accountHistory : Option AccountHistory) : PaymentHistory :=
  match accountHistory with
  | none => { score := 1/2, trend := "stable", onTimeRate := none }
  | some accountHistory =>
    let transactions := accountHistory.transactions
    let paymentTransactions := transactions.filter (fun t => t.txnType = "payment")
    let onTimePayments := (paymentTransactions.filter (fun t => t.onTime = some true)).length
    let totalPayments := paymentTransactions.length
    { score := if totalPayments > 0 then (onTimePayments : ℚ) / (totalPayments : ℚ) else 1/2
      trend := env.calculatePaymentTrend paymentTransactions
      onTimeRate := some (if totalPayments > 0 then (onTimePayments : ℚ) / (totalPayments : ℚ) else 0) }

/-- Embedding of `calculateFinancialStabilityScore(application)`.  In JS,
`debt / income` with `income = 0` is `Infinity` (or `NaN` at `0/0`); `ℚ`
sets `x / 0 = 0`, which diverges only on zero-income applications and is
irrelevant to the aggregation claims. -/
def calculateFinancialStabilityScore (application : Application) : ℚ :=
  let income := application.financialInfo.annualIncome
  let debt := application.financialInfo.monthlyDebt * 12
  let employment := application.financialInfo.employmentHistory
  let incomeScore := min (income / 50000) 1 * (2/5)
  let debtScore := max 0 (1 - debt / income) * (2/5)
  let employmentScore := min (employment / 24) 1 * (1/5)
  incomeScore + debtScore + employmentScore

/-- Embedding of `calculateBehavioralScore(application)`. -/
def calculateBehavioralScore (application : Application) : ℚ :=
  let bankingHistory := (application.relationshipInfo.map RelationshipInfo.length).getD 0
  let productUsage : ℚ :=
    ((application.relationshipInfo.map (fun r => (r.products.length : ℚ))).getD 0)
  let channelScore : ℚ :=
    if application.channel = "branch" then 4/5
    else if application.channel = "online" then 9/10 else 7/10
  let historyScore := min (bankingHistory / 60) 1 * (1/2)
  let usageScore := min (productUsage / 5) 1 * (3/10)
  historyScore + usageScore + channelScore * (1/5)

/-- Embedding of `calculateCollateralScore(application)`. -/
def calculateCollateralScore (application : Application) : ℚ :=
  match application.collateral with
  | none => 1/2
  | some collateral =>
    let loanToValue := application.loanDetails.loanAmount / collateral.collateralValue
    let typeScore : ℚ :=
      if collateral.collateralType = "real_estate" then 9/10
      else if collateral.collateralType = "vehicle" then 3/5
      else if collateral.collateralType = "securities" then 4/5
      else 7/10
    let ltvScore := max 0 (1 - loanToValue)
    typeScore * (2/5) + ltvScore * (3/5)

/-- Embedding of `calculateMarketConditionsScore(application)`: the average
of two constants and the two elided market getters. -/
def calculateMarketConditionsScore {ρ : Type} (env : CreditRiskEnv ρ)
    (application : Application) : ℚ :=
  let marketFactors : List ℚ :=
    [7/10, 4/5,
     env.getIndustryPerformance application.financialInfo.industryType,
     env.getRegionalEconomics application.personalInfo.address]
  marketFactors.foldl (· + ·) 0 / (marketFactors.length : ℚ)

/-- The `weights` record of `calculateComprehensiveRiskScores`, as the
(key, weight) list that `Object.keys(weights).reduce` traverses. -/
def riskWeights : List (String × ℚ) :=
  [("creditScore", 30/100), ("financialStability", 25/100), ("behavioral", 20/100),
   ("collateral", 15/100), ("marketConditions", 10/100)]

/-- Embedding of `calculateComprehensiveRiskScores(application)`: the five
component scores, their weighted `reduce` into `overall`, the three model
predictions, and `expectedLoss` as their product. -/
def calculateComprehensiveRiskScores {ρ : Type} (env : CreditRiskEnv ρ)
    (application : Application) : RiskScores :=
  let creditScore := env.creditScorePredict application
  let financialStability := calculateFinancialStabilityScore application
  let behavioral := calculateBehavioralScore application
  let collateral := calculateCollateralScore application
  let marketConditions := calculateMarketConditionsScore env application
  let component : String → ℚ := fun key =>
    if key = "creditScore" then creditScore
    else if key = "financialStability" then financialStability
    else if key = "behavioral" then behavioral
    else if key = "collateral" then collateral
    else if key = "marketConditions" then marketConditions
    else 0
  let overall := riskWeights.foldl (fun total kw => total + component kw.1 * kw.2) 0
  let probabilityOfDefault := env.pdPredict application
  let lossGivenDefault := env.lgdPredict application
  let exposureAtDefault := env.eadPredict application
  { creditScore := creditScore, financialStability := financialStability,
    behavioral := behavioral, collateral := collateral,
    marketConditions := marketConditions, overall := overall,
    probabilityOfDefault := probabilityOfDefault,
    lossGivenDefault := lossGivenDefault,
    exposureAtDefault := exposureAtDefault,
    expectedLoss := probabilityOfDefault * lossGivenDefault * exposureAtDefault }

/-- Embedding of `applyStressScenario(baseScores, scenario, application)`:
each of PD, LGD, EAD is multiplied by its scenario multiplier and capped by
`Math.min(..., 1.0)`; the stressed expected loss is the product of the
three stressed values; all other fields are spread unchanged from
`baseScores`. -/
def applyStressScenario {ρ : Type} (env : CreditRiskEnv ρ) (baseScores : RiskScores)
    (scenario : Scenario) (application : Application) : RiskScores :=
  let pdMultiplier := env.calculatePDStressMultiplier scenario application
  let probabilityOfDefault := min (baseScores.probabilityOfDefault * pdMultiplier) 1
  let lgdMultiplier := env.calculateLGDStressMultiplier scenario application
  let lossGivenDefault := min (baseScores.lossGivenDefault * lgdMultiplier) 1
  let eadMultiplier := env.calculateEADStressMultiplier scenario application
  let exposureAtDefault := min (baseScores.exposureAtDefault * eadMultiplier) 1
  { baseScores with
    probabilityOfDefault := probabilityOfDefault
    lossGivenDefault := lossGivenDefault
    exposureAtDefault := exposureAtDefault
    expectedLoss := probabilityOfDefault * lossGivenDefault * exposureAtDefault }

/-- One entry of the stress-test results record. -/
structure ScenarioStressResult where
  key : String
  scenario : Scenario
  stressedPD : ℚ
  stressedLGD : ℚ
  stressedEAD : ℚ
  stressedExpectedLoss : ℚ
  capitalRequirement : ℚ
  riskAdjustedReturn : ℚ
  passesStressTest : Bool
deriving DecidableEq, Repr

/-- Embedding of `performApplicationStressTest(application, riskScores)`:
one stressed result per economic scenario. -/
def performApplicationStressTest {ρ : Type} (env : CreditRiskEnv ρ)
    (application : Application) (riskScores : RiskScores) : List ScenarioStressResult :=
  economicScenarios.map fun kv =>
    let stressedScores := applyStressScenario env riskScores kv.2 application
    { key := kv.1
      scenario := kv.2
      stressedPD := stressedScores.probabilityOfDefault
      stressedLGD := stressedScores.lossGivenDefault
      stressedEAD := stressedScores.exposureAtDefault
      stressedExpectedLoss := stressedScores.expectedLoss
      capitalRequirement := env.calculateCapitalRequirement stressedScores kv.2
      riskAdjustedReturn := env.calculateRiskAdjustedReturn application stressedScores
      passesStressTest := stressedScores.expectedLoss ≤ env.getStressTestThreshold }

/-- The `demographics` part of a borrower profile. -/
structure BorrowerDemographics where
  age : Int
  employmentTenure : ℚ
  incomeStability : ℚ
  geographicLocation : Option Address
  industryType : String
deriving DecidableEq, Repr

/-- The `financial` part of a borrower profile.  In JS,
`monthlyDebt / monthlyIncome` with zero income is `Infinity`/`NaN`; `ℚ`
yields `0` there (irrelevant to the claims). -/
structure BorrowerFinancial where
  income : ℚ
  debtToIncomeRatio : ℚ
  creditUtilization : ℚ
  liquidAssets : ℚ
  netWorth : ℚ
  paymentHistory : PaymentHistory
deriving DecidableEq, Repr

/-- The `behavioral` part of a borrower profile; the communication pattern
comes from the elided `analyzeCommPattern`. -/
structure BorrowerBehavioral (ρ : Type) where
  bankingRelationshipLength : ℚ
  channelPreference : String
  productUsage : List String
  communicationPattern : ρ
deriving DecidableEq, Repr

/-- A borrower profile as built by `createBorrowerProfile`. -/
structure BorrowerProfile (ρ : Type) where
  demographics : BorrowerDemographics
  financial : BorrowerFinancial
  behavioral : BorrowerBehavioral ρ
deriving DecidableEq, Repr

/-- Embedding of `createBorrowerProfile(application)` (the clock value is
an explicit argument because `calculateAge` reads `Date.now()`). -/
def createBorrowerProfile {ρ : Type} (env : CreditRiskEnv ρ) (application : Application)
    (now : Int) : BorrowerProfile ρ :=
  { demographics :=
      { age := calculateAge now application.personalInfo.dateOfBirth
        employmentTenure := application.financialInfo.employmentHistory
        incomeStability := assessIncomeStability application.financialInfo
        geographicLocation := application.personalInfo.address
        industryType := strOr application.financialInfo.industryType "unknown" }
    financial :=
      { income := application.financialInfo.annualIncome
        debtToIncomeRatio :=
          application.financialInfo.monthlyDebt / application.financialInfo.monthlyIncome
        creditUtilization := calculateCreditUtilization application.financialInfo
        liquidAssets := (application.financialInfo.liquidAssets).getD 0
        netWorth := (application.financialInfo.netWorth).getD 0
        paymentHistory := analyzePaymentHistory env application.financialInfo.accountHistory }
    behavioral :=
      { bankingRelationshipLength :=
          (application.relationshipInfo.map RelationshipInfo.length).getD 0
        channelPreference := application.channel
        productUsage := (application.relationshipInfo.map RelationshipInfo.products).getD []
        communicationPattern := env.analyzeCommPattern application } }

/-- Embedding of `generateAssessmentId()`:
`` `RISK_${Date.now()}_${Math.random().toString(36).substr(2, 9)}` ``, with
the clock value and the random base-36 suffix as explicit arguments. -/
def generateAssessmentId (now : Int) (rand : String) : String :=
  "RISK_" ++ toString now ++ "_" ++ rand

/-- The assessment record returned by `assessCreditRisk`.  `timestamp` is
the clock value at entry (the source stores its ISO rendering);
`ρ`-typed fields are the outputs of the elided helpers. -/
structure Assessment (ρ : Type) where
  id : String
  applicationId : String
  timestamp : Int
  agentId : String
  borrowerProfile : BorrowerProfile ρ
  riskScores : RiskScores
  riskFactors : ρ
  concentrationAnalysis : ρ
  stressTestResults : List ScenarioStressResult
  modelOutputs : ρ
  validationResults : ρ
  recommendation : ρ
  pricingAdjustments : ρ
deriving DecidableEq, Repr

/-- Embedding of the value computed and returned by
`CreditRiskAgent.assessCreditRisk(loanApplication)` (the audit-trail side
effect is in `assessCreditRisk` below). -/
def assessCreditRiskResult {ρ : Type} (env : CreditRiskEnv ρ) (loanApplication : Application)
    (now : Int) (rand : String) : Assessment ρ :=
  let riskScores := calculateComprehensiveRiskScores env loanApplication
  { id := generateAssessmentId now rand
    applicationId := loanApplication.id
    timestamp := now
    agentId := "credit-risk-001"
    borrowerProfile := createBorrowerProfile env loanApplication now
    riskScores := riskScores
    riskFactors := env.analyzeDetailedRiskFactors loanApplication
    concentrationAnalysis := env.analyzeConcentrationRisk loanApplication
    stressTestResults := performApplicationStressTest env loanApplication riskScores
    modelOutputs := env.generateModelOutputs loanApplication
    validationResults := env.validateAssessment loanApplication riskScores
    recommendation := env.generateDetailedRecommendation loanApplication riskScores
    pricingAdjustments := env.calculatePricingAdjustments loanApplication riskScores }

/-- Details of the `RISK_ASSESSMENT_COMPLETED` audit-trail entry.  The
source logs `assessment.recommendation.decision`; with the recommendation
abstract, the recommendation value itself is stored. -/
structure CreditLogDetails (ρ : Type) where
  assessmentId : String
  applicationId : String
  overallRiskScore : ℚ
  recommendation : ρ
  executionTime : Int
deriving DecidableEq, Repr

/-- An entry pushed onto `this.auditTrail` by `CreditRiskAgent.logAction`. -/
structure CreditLogEntry (ρ : Type) where
  timestamp : Int
  agentId : String
  action : String
  details : CreditLogDetails ρ
deriving DecidableEq, Repr

/-- The agent's `portfolio` (its contents are never modified by the scoring
operations; only identity matters to the frame claims). -/
structure Portfolio where
  loans : List String
  totalExposure : ℚ
  riskWeightedAssets : ℚ
deriving DecidableEq, Repr

/-- The mutable state of a `CreditRiskAgent` instance that persists across
calls: `this.auditTrail`, `this.portfolio`, `this.riskReports`. -/
structure CreditAgentState (ρ : Type) where
  auditTrail : List (CreditLogEntry ρ)
  portfolio : Portfolio
  riskReports : List (String × String)
deriving DecidableEq, Repr

/-- Embedding of `CreditRiskAgent.assessCreditRisk` with its state effect:
it returns the assessment and, through `this.logAction`, pushes one
`RISK_ASSESSMENT_COMPLETED` entry onto the audit trail (`logAction` also
emits a synchronous `action` event to any listeners, which touches no agent
state).  `now` is the clock at entry, `nowLog` the clock at the log call
(the source computes `executionTime` from a second `Date.now()`). -/
def assessCreditRisk {ρ : Type} (env : CreditRiskEnv ρ) (state : CreditAgentState ρ)
    (loanApplication : Application) (now nowLog : Int) (rand : String) :
    Assessment ρ × CreditAgentState ρ :=
  let assessment := assessCreditRiskResult env loanApplication now rand
  let entry : CreditLogEntry ρ :=
    { timestamp := nowLog
      agentId := "credit-risk-001"
      action := "RISK_ASSESSMENT_COMPLETED"
      details :=
        { assessmentId := assessment.id
          applicationId := loanApplication.id
          overallRiskScore := assessment.riskScores.overall
          recommendation := assessment.recommendation
          executionTime := nowLog - now } }
  (assessment, { state with auditTrail := state.auditTrail ++ [entry] })

/-- An entry pushed onto `ComplianceAgent`'s audit trail by its
`logAction` (and appended, JSON-rendered, to the external log file). -/
structure ComplianceLogEntry where
  timestamp : Int
  agentId : String
  action : String
  applicationId : String
  status : String
  violations : ℕ
deriving DecidableEq, Repr

/-- The mutable state of a `ComplianceAgent` instance that persists across
calls: `this.auditTrail` and the external `compliance.log` file (modelled
as the list of entries appended to it). -/
structure ComplianceAgentState where
  auditTrail : List ComplianceLogEntry
  logFile : List ComplianceLogEntry
deriving DecidableEq, Repr

/-- Embedding of `ComplianceAgent.performComplianceCheck` with its state
effect: `this.logAction` runs only after all five checks, so a check that
throws leaves the agent state untouched; on success one `COMPLIANCE_CHECK`
entry is appended to the audit trail and to the log file. -/
def performComplianceCheckS (watchLists : WatchLists) (state : ComplianceAgentState)
    (application : Application) (riskAssessment : Option RiskAssessment)
    (now nowLog : Int) : Except JsErr ComplianceCheckRecord × ComplianceAgentState :=
  match performComplianceCheck watchLists application riskAssessment now with
  | Except.error e => (Except.error e, state)
  | Except.ok record =>
    let entry : ComplianceLogEntry :=
      { timestamp := nowLog
        agentId := "compliance-001"
        action := "COMPLIANCE_CHECK"
        applicationId := application.id
        status := record.overallStatus
        violations := record.violations.length }
    (Except.ok record,
     { auditTrail := state.auditTrail ++ [entry], logFile := state.logFile ++ [entry] })

/-! ## Concrete fixtures for evaluations -/

/-- Empty watch lists (screening a name against them finds nothing). -/
def mockWatchLists : WatchLists := { pep := [], sanctions := [], adverse := [] }

/-- A well-formed mock loan application, in the shape of the repository's
`mocks/sampleApplication.json` test fixture: personal data present and
verified, no account history, no collateral. -/
def mockApplication : Application :=
  { id := "APP-001"
    personalInfo :=
      { firstName := "Jane", lastName := "Doe", ssn := some "123-45-6789"
        address := some { state := some "CA", country := "USA" }
        addressVerified := true, dateOfBirth := 631152000000 }
    financialInfo :=
      { annualIncome := 85000, monthlyIncome := 7000, monthlyDebt := 1200
        employmentHistory := 48, employmentType := "full_time"
        incomeSource := "employment", industryType := some "technology"
        creditScore := some 720, liquidAssets := some 25000, netWorth := some 150000
        creditCards := some [{ limit := 10000, balance := 2500 }]
        accountHistory := none }
    loanDetails := { loanAmount := 50000, loanType := some "term_loan", seniority := none }
    collateral := none
    relationshipInfo := some { length := 36, products := ["checking", "savings"] }
    channel := "online"
    demographics := none
    incomeVerified := true
    incomeDocuments := true
    employmentVerified := true
    accountHistory := none }

/-- A concrete instantiation of the abstract helper environment (all elided
helpers constant), with `Unit` as the abstract result type. -/
def unitCreditEnv : CreditRiskEnv Unit :=
  { creditScorePredict := fun _ => 7/10
    pdPredict := fun _ => 1/50
    lgdPredict := fun _ => 9/20
    eadPredict := fun _ => 50000
    getIndustryPerformance := fun _ => 3/4
    getRegionalEconomics := fun _ => 7/10
    calculatePaymentTrend := fun _ => "stable"
    analyzeCommPattern := fun _ => ()
    analyzeDetailedRiskFactors := fun _ => ()
    analyzeConcentrationRisk := fun _ => ()
    generateModelOutputs := fun _ => ()
    validateAssessment := fun _ _ => ()
    generateDetailedRecommendation := fun _ _ => ()
    calculatePricingAdjustments := fun _ _ => ()
    calculatePDStressMultiplier := fun _ _ => 3/2
    calculateLGDStressMultiplier := fun _ _ => 6/5
    calculateEADStressMultiplier := fun _ _ => 11/10
    calculateCapitalRequirement := fun _ _ => 0
    calculateRiskAdjustedReturn := fun _ _ => 0
    getStressTestThreshold := 1/50 }

/-- A credit-risk agent state with an empty audit trail and portfolio. -/
def emptyCreditState : CreditAgentState Unit :=
  { auditTrail := []
    portfolio := { loans := [], totalExposure := 0, riskWeightedAssets := 0 }
    riskReports := [] }

/-- Personal information whose full name is the six-character `alb cd`. -/
def screeningPersonalInfo : PersonalInfo :=
  { firstName := "Alb", lastName := "Cd", ssn := none, address := none
    addressVerified := false, dateOfBirth := 0 }

/-- A two-entry watch list: an exact (case-insensitive) match for
`alb cd`, and `alb c` at Levenshtein distance 1 (similarity 5/6). -/
def screeningWatchList : List WatchEntry :=
  [{ name := "ALB CD" }, { name := "alb c" }]

/-! ## Theorems -/

/-- Helper: a two-way disjunctive membership search over a status list. -/
theorem exists_mem_or_iff (l : List String) (a b : String) :
    (∃ s ∈ l, s = a ∨ s = b) ↔ a ∈ l ∨ b ∈ l := by
  constructor
  · rintro ⟨s, hs, rfl | rfl⟩
    · exact Or.inl hs
    · exact Or.inr hs
  · rintro (h | h)
    · exact ⟨a, h, Or.inl rfl⟩
    · exact ⟨b, h, Or.inr rfl⟩

/-- C4: for every record of five check results, `evaluateOverallCompliance`
returns NON_COMPLIANT exactly when some check has status FAIL or VIOLATION,
otherwise REVIEW_REQUIRED exactly when some check has status
REVIEW_REQUIRED or WARNING, and COMPLIANT otherwise; in particular a kyc
status of CONDITIONAL with the remaining checks clean still yields
COMPLIANT. -/
theorem evaluateOverallCompliance_spec (checks : ComplianceChecks) :
    (evaluateOverallCompliance checks = "NON_COMPLIANT" ↔
      ∃ s ∈ checksStatuses checks, s = "FAIL" ∨ s = "VIOLATION")
    ∧ (evaluateOverallCompliance checks = "REVIEW_REQUIRED" ↔
      ((¬ ∃ s ∈ checksStatuses checks, s = "FAIL" ∨ s = "VIOLATION") ∧
        ∃ s ∈ checksStatuses checks, s = "REVIEW_REQUIRED" ∨ s = "WARNING"))
    ∧ (evaluateOverallCompliance checks = "COMPLIANT" ↔
      ((¬ ∃ s ∈ checksStatuses checks, s = "FAIL" ∨ s = "VIOLATION") ∧
        ¬ ∃ s ∈ checksStatuses checks, s = "REVIEW_REQUIRED" ∨ s = "WARNING"))
    ∧ evaluateOverallCompliance
        { kyc := { status := "CONDITIONAL" }, aml := { status := "PASS" },
          fairLending := { status := "PASS" }, regulatory := { status := "COMPLIANT" },
          sanctions := { status := "CLEAR" } } = "COMPLIANT" := by
  have key : ∀ a b : String,
      (((checksStatuses checks).contains a || (checksStatuses checks).contains b) = true) ↔
        (∃ s ∈ checksStatuses checks, s = a ∨ s = b) := by
    intro a b
    rw [exists_mem_or_iff]
    simp
  refine ⟨?_, ?_, ?_, by rfl⟩ <;>
  · simp only [evaluateOverallCompliance]
    split_ifs with h1 h2 <;> (try rw [key] at h1) <;> (try rw [key] at h2) <;> simp [*]

/-- C2: for every loan application (and every valuation of the abstracted
model predictions and elided helpers), `calculateComprehensiveRiskScores`
yields `overall = 0.30·creditScore + 0.25·financialStability +
0.20·behavioral + 0.15·collateral + 0.10·marketConditions`, the five
weights sum to 1, and `expectedLoss = probabilityOfDefault ·
lossGivenDefault · exposureAtDefault`. -/
theorem calculateComprehensiveRiskScores_spec (ρ : Type) (env : CreditRiskEnv ρ)
    (application : Application) :
    (calculateComprehensiveRiskScores env application).overall =
      30/100 * (calculateComprehensiveRiskScores env application).creditScore +
      25/100 * (calculateComprehensiveRiskScores env application).financialStability +
      20/100 * (calculateComprehensiveRiskScores env application).behavioral +
      15/100 * (calculateComprehensiveRiskScores env application).collateral +
      10/100 * (calculateComprehensiveRiskScores env application).marketConditions
    ∧ (riskWeights.map Prod.snd).sum = 1
    ∧ (calculateComprehensiveRiskScores env application).expectedLoss =
      (calculateComprehensiveRiskScores env application).probabilityOfDefault *
      (calculateComprehensiveRiskScores env application).lossGivenDefault *
      (calculateComprehensiveRiskScores env application).exposureAtDefault := by
  refine ⟨?_, by norm_num [riskWeights], rfl⟩
  simp only [calculateComprehensiveRiskScores, riskWeights, List.foldl]
  simp
  ring

/-- C3: for every set of base risk scores, scenario and application (and
every valuation of the elided stress multipliers), `applyStressScenario`
returns `PD = min(basePD · pdMult, 1)`, `LGD = min(baseLGD · lgdMult, 1)`,
`EAD = min(baseEAD · eadMult, 1)` and `expectedLoss` equal to the product
of the three stressed values; each stressed PD, LGD and EAD is at most 1. -/
theorem applyStressScenario_spec (ρ : Type) (env : CreditRiskEnv ρ)
    (baseScores : RiskScores) (scenario : Scenario) (application : Application) :
    (applyStressScenario env baseScores scenario application).probabilityOfDefault =
      min (baseScores.probabilityOfDefault *
        env.calculatePDStressMultiplier scenario application) 1
    ∧ (applyStressScenario env baseScores scenario application).lossGivenDefault =
      min (baseScores.lossGivenDefault *
        env.calculateLGDStressMultiplier scenario application) 1
    ∧ (applyStressScenario env baseScores scenario application).exposureAtDefault =
      min (baseScores.exposureAtDefault *
        env.calculateEADStressMultiplier scenario application) 1
    ∧ (applyStressScenario env baseScores scenario application).expectedLoss =
      (applyStressScenario env baseScores scenario application).probabilityOfDefault *
      (applyStressScenario env baseScores scenario application).lossGivenDefault *
      (applyStressScenario env baseScores scenario application).exposureAtDefault
    ∧ (applyStressScenario env baseScores scenario application).probabilityOfDefault ≤ 1
    ∧ (applyStressScenario env baseScores scenario application).lossGivenDefault ≤ 1
    ∧ (applyStressScenario env baseScores scenario application).exposureAtDefault ≤ 1 := by
  refine ⟨rfl, rfl, rfl, rfl, ?_, ?_, ?_⟩ <;> exact min_le_right _ _

/-- C8: for every loan application, the KYC score is 25 times the number of
satisfied verification requirements (hence lies in {0, 25, 50, 75, 100}),
the requirement and issue lists together always have four entries, and the
status is PASS iff the score reaches the configured pass threshold (75),
CONDITIONAL iff it reaches the conditional threshold (50) but not the pass
threshold, and FAIL iff it is below the conditional threshold. -/
theorem performKYCCheck_spec (application : Application) :
    (performKYCCheck application).score = 25 * kycSatisfiedCount application
    ∧ ((performKYCCheck application).score = 0 ∨ (performKYCCheck application).score = 25 ∨
       (performKYCCheck application).score = 50 ∨ (performKYCCheck application).score = 75 ∨
       (performKYCCheck application).score = 100)
    ∧ (performKYCCheck application).requirements.length +
        (performKYCCheck application).issues.length = 4
    ∧ ((performKYCCheck application).status = "PASS" ↔
        complianceConfig.pass ≤ (performKYCCheck application).score)
    ∧ ((performKYCCheck application).status = "CONDITIONAL" ↔
        (complianceConfig.conditional ≤ (performKYCCheck application).score ∧
          (performKYCCheck application).score < complianceConfig.pass))
    ∧ ((performKYCCheck application).status = "FAIL" ↔
        (performKYCCheck application).score < complianceConfig.conditional) := by
  cases h1 : truthyStr application.personalInfo.ssn <;>
  cases h2 : (application.personalInfo.address.isSome && application.personalInfo.addressVerified) <;>
  cases h3 : (application.incomeVerified && application.incomeDocuments) <;>
  cases h4 : application.employmentVerified <;>
  simp [performKYCCheck, kycSatisfiedCount, complianceConfig, h1, h2, h3, h4]

/-- C7 (at the failing input): when the FRED request succeeds with a parsed
DGS3MO value of 5, both copies of `fetchTreasuryRates` report 5 (the object
copy with `isFallback: false`), and on any failure they report the fallback
5.2; the number-returning `fetchCurrentYields` derives its yields from the
fetched rate as claimed (Treasury MMF = 5.15, CD 3-Month = 5.25), but the
object-returning copy destructures the non-existent `value` property, so
its Treasury MMF rate is 4.15 — computed from the default 4.0, not from the
fetched treasury rate. -/
theorem fetchCurrentYields_value_bug :
    fetchTreasuryRatesObj (FredOutcome.observation (some 5)) =
      { rate := 5, isFallback := false }
    ∧ fetchTreasuryRatesObj FredOutcome.noApiKey = { rate := 26/5, isFallback := true }
    ∧ fetchTreasuryRatesObj (FredOutcome.observation none) = { rate := 26/5, isFallback := true }
    ∧ fetchTreasuryRatesNum (FredOutcome.observation (some 5)) = 5
    ∧ (fetchCurrentYieldsV2 (FredOutcome.observation (some 5))).treasuryMMF = 103/20
    ∧ (fetchCurrentYieldsV2 (FredOutcome.observation (some 5))).cd3Month = 21/4
    ∧ toFixed2 (5 + 3/20) = 103/20
    ∧ (fetchCurrentYieldsV1 (FredOutcome.observation (some 5))).treasuryMMF.rate = 83/20
    ∧ (fetchCurrentYieldsV1 (FredOutcome.observation (some 5))).treasuryMMF.rate ≠
        toFixed2 (5 + 3/20) := by
  refine ⟨rfl, rfl, rfl, rfl, ?_, ?_, ?_, ?_, ?_⟩ <;>
    norm_num [fetchCurrentYieldsV1, fetchCurrentYieldsV2, fetchTreasuryRatesNum,
      fetchTreasuryRatesObj, treasuryRatesValueProp, toFixed2]

/-- Helper: the fair-lending module raises a `TypeError` on every input
(one of its three `this.`-method calls is always reached). -/
theorem performFairLendingCheck_raises (application : Application)
    (riskAssessment : Option RiskAssessment) :
    ∃ e, performFairLendingCheck application riskAssessment = Except.error e := by
  unfold performFairLendingCheck
  split_ifs <;> exact ⟨_, rfl⟩

/-- Helper: `performComplianceCheck` raises on every input — the AML check
either raises or succeeds, and in the latter case the fair-lending check
raises. -/
theorem performComplianceCheck_raises (watchLists : WatchLists) (application : Application)
    (riskAssessment : Option RiskAssessment) (now : Int) :
    ∃ e, performComplianceCheck watchLists application riskAssessment now = Except.error e := by
  cases haml : performAMLCheck application watchLists with
  | error e =>
    refine ⟨e, ?_⟩
    unfold performComplianceCheck
    rw [haml]
    rfl
  | ok aml =>
    obtain ⟨e, he⟩ := performFairLendingCheck_raises application riskAssessment
    refine ⟨e, ?_⟩
    unfold performComplianceCheck
    rw [haml, he]
    rfl

/-- C1 (refuted at the failing input): on the mock loan application (well
formed, no account history) with a present risk assessment,
`performComplianceCheck` does not return a compliance-check record at all:
it rejects with the `TypeError` raised inside `performFairLendingCheck`,
whose `this.analyzDecisionConsistency` is not a function because the module
function is invoked without the agent as `this`.  (By
`performComplianceCheck_raises`, the same happens on every input.) -/
theorem performComplianceCheck_mock_raises :
    performComplianceCheck mockWatchLists mockApplication
        (some { capitalRequirement := none }) 0 =
      Except.error (JsErr.typeError "this.analyzDecisionConsistency is not a function") := by
  obtain ⟨a, ha⟩ : ∃ a, performAMLCheck mockApplication mockWatchLists = Except.ok a :=
    ⟨_, rfl⟩
  unfold performComplianceCheck
  rw [ha]
  rfl

/-- C6 (counterexample): invoking the scoring operation `assessCreditRisk`
on an agent with an empty audit trail does not leave the persistent agent
state unchanged — the audit trail gains an entry. -/
theorem assessCreditRisk_mutates_state :
    (assessCreditRisk unitCreditEnv emptyCreditState mockApplication 0 0 "aaaaaaaaa").2 ≠
      emptyCreditState := by
  intro h
  have hlen := congrArg (fun s => s.auditTrail.length) h
  simp [assessCreditRisk, emptyCreditState] at hlen

/-- C6 (amended): a scoring invocation touches the persistent agent state
only through the audit log: `assessCreditRisk` leaves `portfolio` and
`riskReports` unchanged and appends exactly one RISK_ASSESSMENT_COMPLETED
entry to `auditTrail`, and `performComplianceCheck` (which always raises
before reaching its `logAction`) leaves the compliance agent's audit trail
and external log file unchanged. -/
theorem scoring_state_frame (ρ : Type) (env : CreditRiskEnv ρ) (state : CreditAgentState ρ)
    (loanApplication : Application) (now nowLog : Int) (rand : String)
    (watchLists : WatchLists) (cstate : ComplianceAgentState) (application : Application)
    (riskAssessment : Option RiskAssessment) (cnow cnowLog : Int) :
    (assessCreditRisk env state loanApplication now nowLog rand).2.portfolio = state.portfolio
    ∧ (assessCreditRisk env state loanApplication now nowLog rand).2.riskReports =
        state.riskReports
    ∧ (∃ entry, (assessCreditRisk env state loanApplication now nowLog rand).2.auditTrail =
        state.auditTrail ++ [entry] ∧ entry.action = "RISK_ASSESSMENT_COMPLETED")
    ∧ (performComplianceCheckS watchLists cstate application riskAssessment cnow cnowLog).2 =
        cstate := by
  refine ⟨rfl, rfl, ⟨_, rfl, rfl⟩, ?_⟩
  obtain ⟨e, he⟩ := performComplianceCheck_raises watchLists application riskAssessment cnow
  simp [performComplianceCheckS, he]

/-- C5 (counterexample): two invocations of `assessCreditRisk` on equal
inputs and equal agent state (here even at the same clock reading) yield
different assessment results, because the assessment id embeds a
`Math.random` draw, which differs between the invocations. -/
theorem assessCreditRisk_not_deterministic :
    (assessCreditRisk unitCreditEnv emptyCreditState mockApplication 0 0 "aaaaaaaaa").1 ≠
      (assessCreditRisk unitCreditEnv emptyCreditState mockApplication 0 0 "bbbbbbbbb").1 := by
  intro h
  have hid := congrArg Assessment.id h
  simp only [assessCreditRisk, assessCreditRiskResult, generateAssessmentId] at hid
  exact absurd hid (by decide)

/-- C5 (amended): the credit-risk pipeline is deterministic apart from the
metadata drawn from the clock and the random generator: two invocations of
`assessCreditRisk` on equal inputs, equal agent state and an equal
entry-clock reading return assessments that agree on every field except
the id (whose `Math.random` suffix differs between invocations); the log
clock reading does not influence the returned assessment at all. -/
theorem assessCreditRisk_deterministic_modulo_id (ρ : Type) (env : CreditRiskEnv ρ)
    (state : CreditAgentState ρ) (loanApplication : Application) (now nowLog1 nowLog2 : Int)
    (rand1 rand2 : String) :
    ({ (assessCreditRisk env state loanApplication now nowLog1 rand1).1 with id := "" }
        : Assessment ρ) =
      { (assessCreditRisk env state loanApplication now nowLog2 rand2).1 with id := "" } := rfl

/-- Helper: the first matrix row — distance from a string to the empty
string is its length. -/
theorem levDistAux_nil_right : ∀ xs : List Char, levDistAux xs [] = xs.length
  | [] => rfl
  | x :: xs => by
    show levConsAux x (levDistAux xs) [] = xs.length + 1
    rw [levConsAux, levDistAux_nil_right xs]

/-- Helper: the source recurrence, as a definitional equation. -/
theorem levDistAux_cons_cons (x : Char) (xs : List Char) (y : Char) (ys : List Char) :
    levDistAux (x :: xs) (y :: ys) =
      if x = y then levDistAux xs ys
      else
        min (levDistAux xs ys + 1)
          (min (levDistAux xs (y :: ys) + 1) (levDistAux (x :: xs) ys + 1)) := rfl

/-- Helper: the distance from a string to itself is zero. -/
theorem levDistAux_self : ∀ xs : List Char, levDistAux xs xs = 0
  | [] => rfl
  | x :: xs => by
    rw [levDistAux_cons_cons, if_pos rfl, levDistAux_self xs]

/-- Helper: the Levenshtein distance is symmetric. -/
theorem levDistAux_symm : ∀ xs ys : List Char, levDistAux xs ys = levDistAux ys xs
  | [], [] => rfl
  | [], y :: ys => by
    rw [levDistAux_nil_right]
    rfl
  | x :: xs, [] => by
    rw [levDistAux_nil_right]
    rfl
  | x :: xs, y :: ys => by
    have h1 := levDistAux_symm xs ys
    have h2 := levDistAux_symm xs (y :: ys)
    have h3 := levDistAux_symm (x :: xs) ys
    rw [levDistAux_cons_cons, levDistAux_cons_cons]
    by_cases h : x = y
    · rw [if_pos h, if_pos h.symm, h1]
    · rw [if_neg h, if_neg (fun hyx => h hyx.symm), h1, h2, h3]
      omega
termination_by xs ys => xs.length + ys.length

/-- Helper: the Levenshtein distance never exceeds the longer length. -/
theorem levDistAux_le_max : ∀ xs ys : List Char, levDistAux xs ys ≤ max xs.length ys.length
  | [], ys => by
    simp [levDistAux]
  | x :: xs, [] => by
    rw [levDistAux_nil_right]
    simp
  | x :: xs, y :: ys => by
    have h1 := levDistAux_le_max xs ys
    have h2 := levDistAux_le_max xs (y :: ys)
    have h3 := levDistAux_le_max (x :: xs) ys
    rw [levDistAux_cons_cons]
    by_cases h : x = y
    · rw [if_pos h]
      simp only [List.length_cons] at *
      omega
    · rw [if_neg h]
      simp only [List.length_cons] at *
      omega
termination_by xs ys => xs.length + ys.length

/-- Helper: `fuzzyMatch` is symmetric in its two strings. -/
theorem fuzzyMatch_symm (s1 s2 : String) : fuzzyMatch s1 s2 = fuzzyMatch s2 s1 := by
  have hsym : levenshteinDistance s2 s1 = levenshteinDistance s1 s2 :=
    levDistAux_symm s2.data s1.data
  simp only [fuzzyMatch, gt_iff_lt]
  rcases Nat.lt_trichotomy s2.length s1.length with h | h | h
  · rw [if_pos h, if_pos h, if_neg (show ¬ s1.length < s2.length by omega),
      if_neg (show ¬ s1.length < s2.length by omega)]
  · rw [if_neg (show ¬ s2.length < s1.length by omega),
      if_neg (show ¬ s2.length < s1.length by omega),
      if_neg (show ¬ s1.length < s2.length by omega),
      if_neg (show ¬ s1.length < s2.length by omega), ← h, hsym]
  · rw [if_neg (show ¬ s2.length < s1.length by omega),
      if_neg (show ¬ s2.length < s1.length by omega), if_pos h, if_pos h]

/-- Helper: bounds of the fuzzy-similarity value when the second string is
no longer than the first. -/
theorem fuzzyVal_bounds (la sb : String) (hle : sb.length ≤ la.length) :
    0 ≤ (if la.length = 0 then (1:ℚ)
         else ((la.length : ℚ) - (levenshteinDistance la sb : ℚ)) / (la.length : ℚ))
    ∧ (if la.length = 0 then (1:ℚ)
       else ((la.length : ℚ) - (levenshteinDistance la sb : ℚ)) / (la.length : ℚ)) ≤ 1 := by
  have hd : levenshteinDistance la sb ≤ la.length := by
    have hmax := levDistAux_le_max la.data sb.data
    have h1 : sb.data.length ≤ la.data.length := hle
    have heq : max la.data.length sb.data.length = la.data.length := by omega
    rw [heq] at hmax
    exact hmax
  by_cases h : la.length = 0
  · rw [if_pos h]
    norm_num
  · rw [if_neg h]
    have hpos : (0:ℚ) < (la.length : ℚ) := by
      exact_mod_cast Nat.pos_of_ne_zero h
    have hdq : (levenshteinDistance la sb : ℚ) ≤ (la.length : ℚ) := by exact_mod_cast hd
    have hd0 : (0:ℚ) ≤ (levenshteinDistance la sb : ℚ) := by positivity
    constructor
    · apply div_nonneg _ hpos.le
      linarith
    · rw [div_le_one hpos]
      linarith

/-- Helper: `fuzzyMatch` always lies in the unit interval. -/
theorem fuzzyMatch_bounds (s1 s2 : String) :
    0 ≤ fuzzyMatch s1 s2 ∧ fuzzyMatch s1 s2 ≤ 1 := by
  simp only [fuzzyMatch, gt_iff_lt]
  by_cases hgt : s2.length < s1.length
  · rw [if_pos hgt, if_pos hgt]
    exact fuzzyVal_bounds s1 s2 (by omega)
  · rw [if_neg hgt, if_neg hgt]
    exact fuzzyVal_bounds s2 s1 (by omega)

/-- Helper: a string matches itself with similarity exactly 1. -/
theorem fuzzyMatch_self (s : String) : fuzzyMatch s s = 1 := by
  simp only [fuzzyMatch, gt_iff_lt, ite_self]
  by_cases h : s.length = 0
  · rw [if_pos h]
  · rw [if_neg h]
    rw [show levenshteinDistance s s = 0 from levDistAux_self s.data]
    have hpos : ((s.length : ℚ)) ≠ 0 := by
      exact_mod_cast h
    field_simp

/-- Helper: every fuzzy match collected by the screening loop has
confidence strictly above 0.8 (the loop only pushes entries whose fuzzy
score exceeds that threshold, storing the score as the confidence). -/
theorem screenLoop_fuzzy_confidence (fullName : String) :
    ∀ (watchList : List WatchEntry) (m : WatchMatch),
      m ∈ (screenLoop fullName watchList).2 → 8/10 < m.confidence := by
  intro watchList
  induction watchList with
  | nil =>
    intro m hm
    simp [screenLoop] at hm
  | cons e rest ih =>
    intro m hm
    simp only [screenLoop] at hm
    split_ifs at hm with h1 h2
    · exact ih m hm
    · rcases List.mem_cons.1 hm with rfl | hm'
      · simpa using h2
      · exact ih m hm'
    · exact ih m hm

/-- Helper: every exact match collected by the screening loop has
confidence exactly 1 (the loop pushes it as the literal 1.0). -/
theorem screenLoop_exact_confidence (fullName : String) :
    ∀ (watchList : List WatchEntry) (m : WatchMatch),
      m ∈ (screenLoop fullName watchList).1 → m.confidence = 1 := by
  intro watchList
  induction watchList with
  | nil =>
    intro m hm
    simp [screenLoop] at hm
  | cons e rest ih =>
    intro m hm
    simp only [screenLoop] at hm
    split_ifs at hm with h1 h2
    · rcases List.mem_cons.1 hm with rfl | hm'
      · rfl
      · exact ih m hm'
    · exact ih m hm
    · exact ih m hm

/-- C9: `fuzzyMatch` is symmetric, always lies in [0, 1] (the Levenshtein
distance never exceeds the longer length), and equals 1 on equal strings;
consequently every fuzzy match reported by `screenAgainstWatchList` has
confidence strictly greater than 0.8, and every exact match has confidence
exactly 1.0. -/
theorem fuzzyMatch_spec (s1 s2 : String) (personalInfo : PersonalInfo)
    (watchList : List WatchEntry) :
    fuzzyMatch s1 s2 = fuzzyMatch s2 s1
    ∧ 0 ≤ fuzzyMatch s1 s2 ∧ fuzzyMatch s1 s2 ≤ 1
    ∧ fuzzyMatch s1 s1 = 1
    ∧ (∀ m ∈ (screenAgainstWatchList personalInfo watchList).fuzzyMatches,
        8/10 < m.confidence)
    ∧ (∀ m ∈ (screenAgainstWatchList personalInfo watchList).exactMatches,
        m.confidence = 1) :=
  ⟨fuzzyMatch_symm s1 s2, (fuzzyMatch_bounds s1 s2).1, (fuzzyMatch_bounds s1 s2).2,
   fuzzyMatch_self s1,
   fun m hm => screenLoop_fuzzy_confidence _ _ m hm,
   fun m hm => screenLoop_exact_confidence _ _ m hm⟩

/-- Helper: concrete evaluation of `fuzzyMatch "alb cd" "alb c"`: the
longer string has 6 characters, the distance is 1, the similarity 5/6. -/
theorem fuzzyMatch_albcd : fuzzyMatch "alb cd" "alb c" = 5/6 := by
  have hlev : levenshteinDistance "alb cd" "alb c" = 1 := by decide
  simp only [fuzzyMatch, gt_iff_lt]
  rw [if_pos (by decide : ("alb c" : String).length < ("alb cd" : String).length),
    if_pos (by decide : ("alb c" : String).length < ("alb cd" : String).length),
    if_neg (by decide : ¬ ("alb cd" : String).length = 0), hlev,
    (by decide : ("alb cd" : String).length = 6)]
  norm_num

/-- Helper: the screening of `alb cd` against the two-entry fixture list
produces exactly one exact match (confidence 1) and one fuzzy match
(confidence 5/6). -/
theorem screen_fixture_eval :
    screenAgainstWatchList screeningPersonalInfo screeningWatchList =
      { exactMatches :=
          [{ matchType := "EXACT_MATCH", confidence := 1, entry := { name := "ALB CD" } }]
        fuzzyMatches :=
          [{ matchType := "FUZZY_MATCH", confidence := 5/6, entry := { name := "alb c" } }] } := by
  have hfn : jsToLower ("Alb" ++ " " ++ "Cd") = "alb cd" := by decide
  have hl1 : jsToLower "ALB CD" = "alb cd" := by decide
  have hl2 : jsToLower "alb c" = "alb c" := by decide
  show ({ exactMatches := (screenLoop (jsToLower ("Alb" ++ " " ++ "Cd")) screeningWatchList).1,
          fuzzyMatches := (screenLoop (jsToLower ("Alb" ++ " " ++ "Cd")) screeningWatchList).2 }
        : ScreeningResult) = _
  rw [hfn]
  simp only [screeningWatchList, screenLoop, hl1, hl2, fuzzyMatch_albcd]
  norm_num
  simp

/-- C9 (witness): at the concrete fixture, the reported fuzzy match has
confidence 5/6 > 0.8 and the reported exact match has confidence 1. -/
theorem fuzzyMatch_spec_witness :
    (8/10 : ℚ) <
      ({ matchType := "FUZZY_MATCH", confidence := 5/6, entry := { name := "alb c" } }
        : WatchMatch).confidence
    ∧ ({ matchType := "EXACT_MATCH", confidence := 1, entry := { name := "ALB CD" } }
        : WatchMatch).confidence = 1 := by
  constructor
  · exact (fuzzyMatch_spec "alb cd" "alb c" screeningPersonalInfo screeningWatchList).2.2.2.2.1
      _ (by rw [screen_fixture_eval]; exact List.mem_singleton.2 rfl)
  · exact (fuzzyMatch_spec "alb cd" "alb c" screeningPersonalInfo screeningWatchList).2.2.2.2.2
      _ (by rw [screen_fixture_eval]; exact List.mem_singleton.2 rfl)
